import Mathlib

/-!
# Verification of the BoLT ride-data ingestion & correlation pipeline

Shallow embedding of the Python sources under `src/src/`:
* `lambda_kinesis_to_dynamo.py` — the ingestion path (normalizer + batch writer),
* `lambda_dynamo_matcher.py`    — the correlator (stream-triggered trip matcher),
* `utils.py`                    — the retry wrapper and the SQS dead-letter helper.

Modelling conventions:
* Python dicts become association lists `List (String × Value)`; a key holding
  Python `None` is `Value.vNull`; a missing key is a `none` lookup.
* Monetary/metric numbers (`float`/`Decimal`) are modelled as `ℚ`.
* The DynamoDB table is a list of items keyed by `(trip_id, sk)`; `put_item`
  replaces the item with the same key, `query` returns items for the partition
  key whose sort key extends the given prefix, in ascending sort-key order
  (DynamoDB's default `ScanIndexForward=True`).
* Store calls can raise: an oracle `outcomes : List Bool` supplies the success
  of successive low-level store calls (an exhausted oracle means success).
  A raised exception in Python is a `false` outcome here; `time.sleep` backoff
  delays are irrelevant to the properties and are not modelled.
* DynamoDB stream images are modelled in decoded form (the boto3
  AttributeValue wire encoding `{"S": ...}` is an external serialization
  layer; `_extract_string_value` / `_extract_value` undo it).
* The ambient clock (`datetime.now()`) is a fixed instant per invocation,
  passed explicitly.
-/

/-- A Python/JSON value as it appears in payloads and DynamoDB items. -/
inductive Value where
  | vStr (s : String)
  | vNum (q : ℚ)
  | vBool (b : Bool)
  | vNull
  | vMap (m : List (String × Value))

/-- A Python dict: association list, first binding wins on lookup. -/
abbrev Payload := List (String × Value)

/-- `d.get(k)`: `none` when the key is missing. -/
def pyGet (d : Payload) (k : String) : Option Value :=
  (d.find? (fun kv => kv.1 == k)).map (fun kv => kv.2)

/-- Python truthiness of a value ( `""`, `0`, `False`, `None`, `{}` are falsy). -/
def truthy : Value → Bool
  | .vStr s => !(s == "")
  | .vNum q => !(q == 0)
  | .vBool b => b
  | .vNull => false
  | .vMap m => !m.isEmpty

/-- Truthiness of a `d.get(k)` result (`None` for a missing key is falsy). -/
def truthyO : Option Value → Bool
  | none => false
  | some v => truthy v

/-- Digits of a natural number, most significant first (auxiliary). -/
def natDigits (n : Nat) : List Char :=
  (Nat.toDigits 10 n)

/-- Python `str()` of a scalar value, as used in f-strings.  Payload identity
fields (`trip_id`, `event_type`, datetimes) are strings in this system, so the
string branch is the one exercised; the remaining branches are best-effort
renderings of the other scalar constructors. -/
def pyStr : Value → String
  | .vStr s => s
  | .vNum q => toString q
  | .vBool b => if b then "True" else "False"
  | .vNull => "None"
  | .vMap _ => "{...}"

/-- `str()` of a `d.get(k)` result. -/
def pyStrO : Option Value → String
  | none => "None"
  | some v => pyStr v

/-! ## Datetime model (`datetime.fromisoformat` / `.isoformat()` / subtraction)

The Python sources call the standard library on canonical
`YYYY-MM-DDTHH:MM:SS[+HH:MM]` strings (the only shape this dataset carries);
the model implements exactly that grammar.  Subtracting a timezone-aware from
a naive datetime raises `TypeError` in Python; `diffSeconds` returns `none`
in that case. -/

/-- Value of a decimal digit character. -/
def digit? (c : Char) : Option Nat :=
  if c.isDigit then some (c.toNat - 48) else none

def d2n (a b : Char) : Option Nat := do
  pure ((← digit? a) * 10 + (← digit? b))

def d4n (a b c d : Char) : Option Nat := do
  pure ((← digit? a) * 1000 + (← digit? b) * 100 + (← digit? c) * 10 + (← digit? d))

def isLeap (y : Nat) : Bool :=
  y % 4 == 0 && (y % 100 != 0 || y % 400 == 0)

def daysInMonth (y m : Nat) : Nat :=
  if m == 2 then (if isLeap y then 29 else 28)
  else if m == 4 || m == 6 || m == 9 || m == 11 then 30
  else 31

/-- Rata-die style civil day count (Hinnant's algorithm), valid for `y ≥ 1`;
only differences of the results matter. -/
def daysFromCivil (y m d : Nat) : Nat :=
  let ya := if m ≤ 2 then y - 1 else y
  let mp := if m ≤ 2 then m + 9 else m - 3
  let era := ya / 400
  let yoe := ya % 400
  let doy := (153 * mp + 2) / 5 + (d - 1)
  let doe := yoe * 365 + yoe / 4 - yoe / 100 + doy
  era * 146097 + doe

/-- A parsed datetime; `off` is the UTC offset in seconds when the string
carried one (timezone-aware), `none` for a naive datetime. -/
structure DT where
  year : Nat
  month : Nat
  day : Nat
  hour : Nat
  minute : Nat
  second : Nat
  off : Option Int

/-- Offset suffix: empty, or `±HH:MM`. -/
def parseOffChars : List Char → Option (Option Int)
  | [] => some none
  | [c, h1, h2, ':', m1, m2] => do
    let h ← d2n h1 h2
    let m ← d2n m1 m2
    if h ≤ 23 && m ≤ 59 then
      let secs : Int := ((h * 3600 + m * 60 : Nat) : Int)
      if c = '+' then some (some secs)
      else if c = '-' then some (some (-secs))
      else none
    else none
  | _ => none

def parseIsoChars (cs : List Char) : Option DT :=
  match cs with
  | y1 :: y2 :: y3 :: y4 :: '-' :: mo1 :: mo2 :: '-' :: dy1 :: dy2 :: 'T' ::
    h1 :: h2 :: ':' :: mi1 :: mi2 :: ':' :: s1 :: s2 :: rest => do
    let y ← d4n y1 y2 y3 y4
    let mo ← d2n mo1 mo2
    let dy ← d2n dy1 dy2
    let h ← d2n h1 h2
    let mi ← d2n mi1 mi2
    let s ← d2n s1 s2
    if 1 ≤ y ∧ 1 ≤ mo ∧ mo ≤ 12 ∧ 1 ≤ dy ∧ dy ≤ daysInMonth y mo ∧
       h ≤ 23 ∧ mi ≤ 59 ∧ s ≤ 59 then
      let off ← parseOffChars rest
      some ⟨y, mo, dy, h, mi, s, off⟩
    else none
  | _ => none

def parseIso (s : String) : Option DT := parseIsoChars s.data

/-- Python `s.replace('Z', '+00:00')` (single-character needle). -/
def replaceZ (s : String) : String :=
  ⟨s.data.foldr
    (fun c acc => if c = 'Z' then '+' :: '0' :: '0' :: ':' :: '0' :: '0' :: acc
                  else c :: acc) []⟩

def pad2 (n : Nat) : String :=
  if n < 10 then "0" ++ toString n else toString n

def pad4 (n : Nat) : String :=
  if n < 10 then "000" ++ toString n
  else if n < 100 then "00" ++ toString n
  else if n < 1000 then "0" ++ toString n
  else toString n

def formatOff : Option Int → String
  | none => ""
  | some o =>
    (if o < 0 then "-" else "+") ++ pad2 (o.natAbs / 3600) ++ ":" ++
      pad2 (o.natAbs % 3600 / 60)

/-- `datetime.isoformat()` for whole-second datetimes. -/
def formatIso (dt : DT) : String :=
  pad4 dt.year ++ "-" ++ pad2 dt.month ++ "-" ++ pad2 dt.day ++ "T" ++
    pad2 dt.hour ++ ":" ++ pad2 dt.minute ++ ":" ++ pad2 dt.second ++
    formatOff dt.off

/-- Naive seconds-since-epoch of the civil time (offset not applied). -/
def toEpoch (dt : DT) : Int :=
  (daysFromCivil dt.year dt.month dt.day : Int) * 86400 +
    ((dt.hour * 3600 + dt.minute * 60 + dt.second : Nat) : Int)

/-- `(b - a).total_seconds()`.  Mixing naive and aware datetimes raises
`TypeError` in Python, modelled as `none`. -/
def diffSeconds (a b : DT) : Option ℚ :=
  match a.off, b.off with
  | none, none => some ((toEpoch b - toEpoch a : Int) : ℚ)
  | some oa, some ob => some (((toEpoch b - ob) - (toEpoch a - oa) : Int) : ℚ)
  | _, _ => none

/-! ## Numeric coercions (`float()` / `int()`) -/

def digitsNat (cs : List Char) : Nat :=
  cs.foldl (fun a c => a * 10 + (c.toNat - 48)) 0

def parseUnsignedDec (cs : List Char) : Option ℚ :=
  let ip := cs.takeWhile Char.isDigit
  match cs.dropWhile Char.isDigit with
  | [] => if ip.isEmpty then none else some ((digitsNat ip : Nat) : ℚ)
  | '.' :: fp =>
    if fp.all Char.isDigit && (!ip.isEmpty || !fp.isEmpty) then
      some (((digitsNat ip : Nat) : ℚ) + ((digitsNat fp : Nat) : ℚ) / (10 : ℚ) ^ fp.length)
    else none
  | _ => none

def parseDecChars : List Char → Option ℚ
  | '-' :: rest => (parseUnsignedDec rest).map Neg.neg
  | '+' :: rest => parseUnsignedDec rest
  | cs => parseUnsignedDec cs

/-- Python `float(x)`; `none` models a raised `ValueError`/`TypeError`. -/
def pyFloat : Value → Option ℚ
  | .vNum q => some q
  | .vStr s => parseDecChars s.data
  | .vBool b => some (if b then 1 else 0)
  | .vNull => none
  | .vMap _ => none

/-- Truncation toward zero (Python `int()` of a number). -/
def ratTrunc (q : ℚ) : Int := q.num / (q.den : Int)

def parseIntChars : List Char → Option Int
  | '-' :: ds =>
    if !ds.isEmpty && ds.all Char.isDigit then some (-(digitsNat ds : Int)) else none
  | '+' :: ds =>
    if !ds.isEmpty && ds.all Char.isDigit then some ((digitsNat ds : Int)) else none
  | ds =>
    if !ds.isEmpty && ds.all Char.isDigit then some ((digitsNat ds : Int)) else none

/-- Python `int(x)`; `none` models a raised `ValueError`/`TypeError`. -/
def pyInt : Value → Option Int
  | .vNum q => some (ratTrunc q)
  | .vStr s => parseIntChars s.data
  | .vBool b => some (if b then 1 else 0)
  | .vNull => none
  | .vMap _ => none

/-! ## The keyed store and the effect state -/

/-- One DynamoDB item.  `attrs` is the full Python dict (it contains its own
`trip_id` / `sk` entries); the two key fields are cached for keying. -/
structure Item where
  trip_id : String
  sk : String
  attrs : Payload

def mkItem (d : Payload) : Item :=
  ⟨pyStrO (pyGet d "trip_id"), pyStrO (pyGet d "sk"), d⟩

def getAttr (i : Item) (k : String) : Option Value := pyGet i.attrs k

/-- `put_item`: unconditional write, replaces the item with the same key. -/
def putPure (t : List Item) (it : Item) : List Item :=
  it :: t.filter (fun j => !(j.trip_id == it.trip_id && j.sk == it.sk))

/-- `get_item` by full primary key. -/
def getPure (t : List Item) (tid sk : String) : Option Item :=
  t.find? (fun j => j.trip_id == tid && j.sk == sk)

def charsPfx : List Char → List Char → Bool
  | [], _ => true
  | _ :: _, [] => false
  | a :: as, b :: bs => a == b && charsPfx as bs

/-- `begins_with(sk, p)`. -/
def strPfx (p s : String) : Bool := charsPfx p.data s.data

def charsLt : List Char → List Char → Bool
  | [], [] => false
  | [], _ :: _ => true
  | _ :: _, [] => false
  | a :: as, b :: bs =>
    if a.toNat < b.toNat then true
    else if a.toNat == b.toNat then charsLt as bs
    else false

def skLt (x y : Item) : Bool := charsLt x.sk.data y.sk.data

def insertBySk (it : Item) : List Item → List Item
  | [] => [it]
  | j :: rest => if skLt it j then it :: j :: rest else j :: insertBySk it rest

def sortBySk : List Item → List Item
  | [] => []
  | it :: rest => insertBySk it (sortBySk rest)

/-- `query(trip_id = tid AND begins_with(sk, p))`: ascending sort-key order
(DynamoDB default). -/
def queryPure (t : List Item) (tid p : String) : List Item :=
  sortBySk (t.filter (fun j => j.trip_id == tid && strPfx p j.sk))

/-- The ambient instant, one per invocation (`datetime.now()`). -/
structure Clock where
  nowIso : String
  nowDate : String
  epoch : Int

/-- Invocation state: the shared table, the outcome oracle for successive
low-level store calls (exhausted oracle = success), the log of logical
`put_item` calls issued, and the log of SQS dead-letter sends. -/
structure MState where
  table : List Item
  outcomes : List Bool
  putLog : List Item
  dlqLog : List (String × String × String)
  clock : Clock

def nextOutcome (s : MState) : Bool × MState :=
  match s.outcomes with
  | [] => (true, s)
  | b :: bs => (b, { s with outcomes := bs })

/-- `utils.retry(lambda: table.put_item(...))`: up to `max_attempts = 3`
attempts with exponential backoff sleeps (sleeps not modelled); the final
failure re-raises (`false`).  The logical write is logged once. -/
def retryGo (it : Item) : Nat → MState → MState × Bool
  | 0, s => (s, false)
  | Nat.succ n, s =>
    let (ok, s') := nextOutcome s
    if ok then ({ s' with table := putPure s'.table it }, true)
    else retryGo it n s'

def retryPut (s : MState) (it : Item) : MState × Bool :=
  retryGo it 3 { s with putLog := s.putLog ++ [it] }

/-- A single, unretried `get_item` call; `none` outside models a raised
exception. -/
def getOnce (s : MState) (tid sk : String) : MState × Option (Option Item) :=
  let (ok, s') := nextOutcome s
  if ok then (s', some (getPure s'.table tid sk)) else (s', none)

/-- A single, unretried `query` call. -/
def queryOnce (s : MState) (tid p : String) : MState × Option (List Item) :=
  let (ok, s') := nextOutcome s
  if ok then (s', some (queryPure s'.table tid p)) else (s', none)

/-- `utils.send_to_dlq`: builds `{failed_record, error_message, timestamp}`
and sends it to the SQS dead-letter queue.  (Defined by the repository but
never invoked by either lambda handler.) -/
def send_to_dlq (s : MState) (record errMsg : String) : MState :=
  { s with dlqLog := s.dlqLog ++ [(record, errMsg, s.clock.nowIso)] }

/-! ## Ingestion path (`lambda_kinesis_to_dynamo.py`)

Python `logger.warning` calls are modelled as returned warning lists (the
static message text, without f-string interpolation). -/

/-- Update an existing key in place (Python `processed[field] = v`). -/
def setKey (p : Payload) (k : String) (v : Value) : Payload :=
  p.map (fun kv => if kv.1 == k then (k, v) else kv)

/-- Dict union where `b`'s entries override `a`'s (`{**a, **b}`). -/
def dictUnion (a b : Payload) : Payload :=
  a.filter (fun kv => !(b.any (fun kv2 => kv2.1 == kv.1))) ++ b

/-- `TripIngestionProcessor._standardize_datetime` (lines 69-84): strings are
Z-normalized, parsed and re-emitted in ISO form; an unparsable string is
returned after the Z-replacement (the local was reassigned before the raise)
with a warning; falsy or non-string input is returned unchanged. -/
def standardize_datetime (v : Value) : Value × List String :=
  if !truthy v then (v, [])
  else match v with
    | .vStr s =>
      let s' := replaceZ s
      match parseIso s' with
      | some dt => (.vStr (formatIso dt), [])
      | none => (.vStr s', ["Could not standardize datetime"])
    | other => (other, [])

/-- `field not in data or data[field] is None`. -/
def missingOrNone (d : Payload) (f : String) : Bool :=
  match pyGet d f with
  | none => true
  | some Value.vNull => true
  | some _ => false

/-- `TripIngestionProcessor._validate_trip_start` (lines 97-124): emits
warnings only; the data is returned unchanged. -/
def validate_trip_start (d : Payload) : Payload × List String :=
  let w1 := (["trip_id", "pickup_location_id", "vendor_id", "pickup_datetime"].filter
      (missingOrNone d)).map
      (fun f => "Missing required field " ++ f ++ " in trip_start event")
  let w2 :=
    match pyGet d "pickup_location_id" with
    | some v =>
      match pyInt v with
      | some pid => if pid < 1 || pid > 300 then ["Invalid pickup_location_id"] else []
      | none => ["Invalid pickup_location_id format"]
    | none => []
  let w3 :=
    match pyGet d "vendor_id" with
    | some v =>
      match pyInt v with
      | some vid => if vid != 1 && vid != 2 then ["Invalid vendor_id"] else []
      | none => ["Invalid vendor_id format"]
    | none => []
  (d, w1 ++ w2 ++ w3)

/-- `TripIngestionProcessor._validate_trip_end` (lines 126-164): emits
warnings only; the data is returned unchanged. -/
def validate_trip_end (d : Payload) : Payload × List String :=
  let w1 := (["trip_id", "dropoff_datetime", "fare_amount"].filter
      (missingOrNone d)).map
      (fun f => "Missing required field " ++ f ++ " in trip_end event")
  let w2 :=
    match pyGet d "fare_amount" with
    | some v =>
      match pyFloat v with
      | some fare =>
        if fare < 0 then ["Negative fare amount"]
        else if fare > 1000 then ["Unusually high fare amount"]
        else []
      | none => ["Invalid fare_amount format"]
    | none => []
  let w3 :=
    match pyGet d "tip_amount" with
    | some v =>
      match pyFloat v with
      | some tip => if tip < 0 then ["Negative tip amount"] else []
      | none => ["Invalid tip_amount format"]
    | none => []
  let w4 :=
    match pyGet d "passenger_count" with
    | some v =>
      match pyInt v with
      | some pc => if pc < 0 || pc > 8 then ["Invalid passenger_count"] else []
      | none => ["Invalid passenger_count format"]
    | none => []
  (d, w1 ++ w2 ++ w3 ++ w4)

/-- `TripIngestionProcessor._validate_and_clean_data` (lines 86-95). -/
def validate_and_clean_data (d : Payload) : Payload × List String :=
  match pyGet d "event_type" with
  | some (.vStr "trip_begin") => validate_trip_start d
  | some (.vStr "trip_end") => validate_trip_end d
  | _ => (d, [])

def stdField (acc : Payload × List String) (f : String) : Payload × List String :=
  let (p, ws) := acc
  match pyGet p f with
  | some v =>
    if truthy v then
      let (v', w) := standardize_datetime v
      (setKey p f v', ws ++ w)
    else (p, ws)
  | none => (p, ws)

/-- `TripIngestionProcessor._apply_transformations` (lines 49-67).  The
float-to-Decimal coercion is the identity here because all numbers are
already exact rationals in the model. -/
def apply_transformations (p : Payload) : Payload × List String :=
  let (p2, ws) :=
    ["pickup_datetime", "dropoff_datetime", "estimated_dropoff_datetime"].foldl
      stdField (p, [])
  let (p3, ws2) := validate_and_clean_data p2
  (p3, ws ++ ws2)

/-- `TripIngestionProcessor.process_trip_event` (lines 24-47).  The `.error`
case models the raised `ValueError` for a missing/falsy `trip_id` or
`event_type`.  In the raw item's dict literal the `**processed_payload`
spread comes last and overrides the explicit entries. -/
def process_trip_event (p : Payload) (c : Clock) : Except String (Item × List String) :=
  let tid := pyGet p "trip_id"
  let et := pyGet p "event_type"
  if !truthyO tid || !truthyO et then
    .error "Missing required fields: trip_id, event_type"
  else
    let (processed, ws) := apply_transformations p
    let ts := c.nowIso
    let sk := "RAW#" ++ pyStrO tid ++ "#" ++ pyStrO et ++ "#" ++ ts
    let explicitFields : Payload :=
      [("trip_id", tid.getD .vNull),
       ("sk", .vStr sk),
       ("event_type", et.getD .vNull),
       ("ingestion_timestamp", .vStr ts),
       ("processing_date", .vStr c.nowDate),
       ("ttl", .vNum ((c.epoch + 7 * 86400 : Int) : ℚ))]
    .ok (mkItem (dictUnion explicitFields processed), ws)

/-- `TripIngestionProcessor.write_raw_event` (lines 166-173): retried write;
exhausted retries re-raise (`false`). -/
def write_raw_event (s : MState) (it : Item) : MState × Bool :=
  retryPut s it

/-- `_process_batch` (lines 233-250): one unretried batch write; on failure,
falls back to per-record retried writes whose individual failures are
swallowed.  Never raises. -/
def process_batch (s : MState) (items : List Item) : MState :=
  let (ok, s1) := nextOutcome s
  if ok then
    { s1 with table := items.foldl putPure s1.table, putLog := s1.putLog ++ items }
  else
    items.foldl (fun st it => (write_raw_event st it).1) s1

/-- A transport record after base64/JSON decoding; `.error` models a decode
failure (malformed payload). -/
abbrev TRec := Except String Payload

def ingest_step (c : Clock) (r : TRec) : Except String (Item × List String) :=
  match r with
  | .error e => .error e
  | .ok p => process_trip_event p c

def bump (ebt : List (String × Nat)) (k : String) : List (String × Nat) :=
  match ebt.find? (fun kv => kv.1 == k) with
  | some _ => ebt.map (fun kv => if kv.1 == k then (kv.1, kv.2 + 1) else kv)
  | none => ebt ++ [(k, 1)]

structure IngestResult where
  statusCode : Nat
  processed : Nat
  errors : Nat
  events_by_type : List (String × Nat)

/-- The per-record loop of the ingestion `lambda_handler` (lines 187-218),
including the trailing flush of a partial batch.  A record that fails
decoding or normalization only increments the error count (the DLQ call at
lines 212-213 is commented out in the source). -/
def ingest_loop : List TRec → MState → List Item → Nat → Nat →
    List (String × Nat) → MState × Nat × Nat × List (String × Nat)
  | [], s, pending, proc, err, ebt =>
    if pending.isEmpty then (s, proc, err, ebt)
    else (process_batch s pending, proc + pending.length, err, ebt)
  | r :: rest, s, pending, proc, err, ebt =>
    match ingest_step s.clock r with
    | .ok (item, _) =>
      let ebt' := bump ebt ((getAttr item "event_type").elim "unknown" pyStr)
      let pending' := pending ++ [item]
      if pending'.length ≥ 25 then
        ingest_loop rest (process_batch s pending') [] (proc + pending'.length) err ebt'
      else
        ingest_loop rest s pending' proc err ebt'
    | .error _ => ingest_loop rest s pending proc (err + 1) ebt

/-- Ingestion `lambda_handler` (lines 175-231): always returns statusCode
200 with the processed/error counts and the per-kind breakdown. -/
def lambda_handler (recs : List TRec) (s : MState) : MState × IngestResult :=
  let (s', proc, err, ebt) := ingest_loop recs s [] 0 0 []
  (s', ⟨200, proc, err, ebt⟩)

/-! ## Correlator (`lambda_dynamo_matcher.py`, class `TripMatcher`) -/

/-- Python `s.split('#')`. -/
def splitChars (sep : Char) : List Char → List (List Char)
  | [] => [[]]
  | c :: rest =>
    let r := splitChars sep rest
    if c = sep then [] :: r
    else
      match r with
      | g :: gs => (c :: g) :: gs
      | [] => [[c]]

def splitHash (s : String) : List String :=
  (splitChars '#' s.data).map (fun g => ⟨g⟩)

/-- `TripMatcher._extract_string_value` (lines 42-49), on a decoded image:
a string attribute is returned as is (even when empty); any other attribute
is rendered with `str` when truthy, and a missing or falsy one gives `None`. -/
def extract_string_value (image : Item) (k : String) : Option String :=
  match getAttr image k with
  | none => none
  | some (.vStr s) => some s
  | some v => if truthy v then some (pyStr v) else none

/-- `TripMatcher._completed_trip_exists` (lines 113-122): a single,
unretried `get_item`; a raised store error is caught and reported as
`False` ("does not exist"). -/
def completed_trip_exists (s : MState) (tid : String) : MState × Bool :=
  match getOnce s tid ("COMPLETED#" ++ tid) with
  | (s', some r) => (s', r.isSome)
  | (s', none) => (s', false)

/-- `TripMatcher._find_counterpart_event` (lines 124-144): a single,
unretried `query` for prefix `RAW#{trip_id}#{event_type}`, returning
`items[0]` of the ascending result (the oldest record); a raised store
error is caught and reported as `None`. -/
def find_counterpart_event (s : MState) (tid et : String) : MState × Option Item :=
  match queryOnce s tid ("RAW#" ++ tid ++ "#" ++ et) with
  | (s', some items) => (s', items.head?)
  | (s', none) => (s', none)

/-- `TripMatcher._convert_dynamo_image_to_item` (lines 186-191): on decoded
images this is the dict itself. -/
def itemToDict (i : Item) : Payload := i.attrs

/-- `d.get(k)` stored into a dict entry: missing keys become `None`. -/
def oget (p : Payload) (k : String) : Value := (pyGet p k).getD .vNull

/-- `datetime.fromisoformat(str(x).replace('Z', '+00:00'))`; `str` of a
non-string scalar never parses as a timestamp. -/
def parseTsVal (v : Option Value) : Option DT :=
  match v with
  | some (.vStr s) => parseIso (replaceZ s)
  | _ => none

/-- `TripMatcher._merge_trip_events` (lines 193-256).  Note the two derived
fields: `trip_duration_seconds` is stored only when the computed duration is
truthy (`if trip_duration` — a zero duration is stored as `None`), while
`fare_variance` is stored under an `is not None` check (a zero variance is
kept).  The fare inputs default to `0` (falsy) when the key is missing. -/
def merge_trip_events (tid : String) (se ee : Payload) (c : Clock) : Item :=
  let pickup_time := pyGet se "pickup_datetime"
  let dropoff_time := pyGet ee "dropoff_datetime"
  let trip_duration : Option ℚ :=
    if truthyO pickup_time && truthyO dropoff_time then
      match parseTsVal pickup_time, parseTsVal dropoff_time with
      | some d1, some d2 => diffSeconds d1 d2
      | _, _ => none
    else none
  let estimated_fare : Value := (pyGet se "estimated_fare_amount").getD (.vNum 0)
  let actual_fare : Value := (pyGet ee "fare_amount").getD (.vNum 0)
  let fare_variance : Option ℚ :=
    if truthy estimated_fare && truthy actual_fare then
      match pyFloat actual_fare, pyFloat estimated_fare with
      | some a, some e => some (a - e)
      | _, _ => none
    else none
  mkItem [
    ("trip_id", .vStr tid),
    ("sk", .vStr ("COMPLETED#" ++ tid)),
    ("status", .vStr "completed"),
    ("pickup_location_id", oget se "pickup_location_id"),
    ("dropoff_location_id", oget se "dropoff_location_id"),
    ("vendor_id", oget se "vendor_id"),
    ("pickup_datetime", pickup_time.getD .vNull),
    ("estimated_dropoff_datetime", oget se "estimated_dropoff_datetime"),
    ("estimated_fare_amount", estimated_fare),
    ("dropoff_datetime", dropoff_time.getD .vNull),
    ("rate_code", oget ee "rate_code"),
    ("passenger_count", oget ee "passenger_count"),
    ("trip_distance", oget ee "trip_distance"),
    ("fare_amount", actual_fare),
    ("tip_amount", oget ee "tip_amount"),
    ("payment_type", oget ee "payment_type"),
    ("trip_type", oget ee "trip_type"),
    ("trip_duration_seconds",
      match trip_duration with
      | some d => if d == 0 then .vNull else .vNum d
      | none => .vNull),
    ("fare_variance", (fare_variance.map Value.vNum).getD .vNull),
    ("completion_timestamp", .vStr c.nowIso),
    ("processing_date", .vStr c.nowDate),
    ("matched_by", .vStr "stream_matcher"),
    ("ttl", .vNum ((c.epoch + 90 * 86400 : Int) : ℚ))]

/-- `TripMatcher._update_trip_state_to_completed` (lines 258-277): a retried
unconditional put of the `STATE#` record; its own failure is caught and only
logged. -/
def update_trip_state_to_completed (s : MState) (tid : String) (se ee : Payload) : MState :=
  let st := mkItem [
    ("trip_id", .vStr tid),
    ("sk", .vStr ("STATE#" ++ tid)),
    ("status", .vStr "COMPLETED"),
    ("start_event", .vMap se),
    ("end_event", .vMap ee),
    ("last_updated", .vStr s.clock.nowIso),
    ("completed_by", .vStr "stream_matcher"),
    ("ttl", .vNum ((s.clock.epoch + 30 * 86400 : Int) : ℚ))]
  (retryPut s st).1

/-- `TripMatcher._create_completed_trip` (lines 146-169): merge, retried
unconditional put of the `COMPLETED#` record, then the state update.  A
failed completed-trip write raises out of `retry` and is caught by the
enclosing `except`, so the state update is skipped. -/
def create_completed_trip (s : MState) (tid curType : String)
    (image cp : Item) : MState :=
  let cur := itemToDict image
  let se := if curType == "trip_start" then cur else itemToDict cp
  let ee := if curType == "trip_start" then itemToDict cp else cur
  let completed := merge_trip_events tid se ee s.clock
  let (s1, ok) := retryPut s completed
  if ok then update_trip_state_to_completed s1 tid se ee else s1

/-- `TripMatcher._create_completed_trip_from_state` (lines 171-184): same
shape, with the END payload taken from the state record. -/
def create_completed_trip_from_state (s : MState) (tid : String)
    (se eeData : Payload) : MState :=
  let completed := merge_trip_events tid se eeData s.clock
  let (s1, ok) := retryPut s completed
  if ok then update_trip_state_to_completed s1 tid se eeData else s1

/-- `TripMatcher._handle_raw_event` (lines 67-97).  Only `trip_start` /
`trip_end` sort-key kinds are processed; the counterpart kind is computed by
the literal test `event_type == "trip_begin"` (line 90).  When no
counterpart is found the function only logs and returns (no state record is
written). -/
def handle_raw_event (s : MState) (tid sk : String) (image : Item) : MState :=
  match splitHash sk with
  | _ :: _ :: et :: _ =>
    if et == "trip_start" || et == "trip_end" then
      match completed_trip_exists s tid with
      | (s1, true) => s1
      | (s1, false) =>
        let ct := if et == "trip_begin" then "trip_end" else "trip_begin"
        match find_counterpart_event s1 tid ct with
        | (s2, some cp) => create_completed_trip s2 tid et image cp
        | (s2, none) => s2
    else s
  | _ => s

/-- `TripMatcher._handle_state_event` (lines 99-111): reacts only to
`ORPHANED_END` states, looking up a `trip_start` counterpart; note that no
completed-trip existence check happens on this path.  A non-dict `end_event`
value raises inside the merge and is swallowed by the callee's `except`. -/
def handle_state_event (s : MState) (tid _sk : String) (image : Item) : MState :=
  let status := extract_string_value image "status"
  if status == some "ORPHANED_END" then
    match find_counterpart_event s tid "trip_start" with
    | (s1, some startEv) =>
      match pyGet image.attrs "end_event" with
      | some eev =>
        if truthy eev then
          match eev with
          | .vMap m => create_completed_trip_from_state s1 tid (itemToDict startEv) m
          | _ => s1
        else s1
      | none => s1
    | (s1, none) => s1
  else s

/-- `TripMatcher.process_stream_record` (lines 16-40), on a decoded stream
record: INSERT/MODIFY events with a truthy `trip_id` and `sk` are routed by
sort-key namespace. -/
def process_stream_record (s : MState) (eventName : String) (image : Item) : MState :=
  if eventName == "INSERT" || eventName == "MODIFY" then
    match extract_string_value image "trip_id", extract_string_value image "sk" with
    | some tid, some sk =>
      if tid == "" || sk == "" then s
      else if strPfx "RAW#" sk then handle_raw_event s tid sk image
      else if strPfx "STATE#" sk then handle_state_event s tid sk image
      else s
    | _, _ => s
  else s

/-- End-to-end delivery of one half-event in its own invocation pair: the
ingestion path persists the RAW record (successful write), and the resulting
stream INSERT notification triggers one correlator invocation
(`process_trip_event` → put → `process_stream_record`). -/
def deliver (s : MState) (p : Payload) : MState :=
  match process_trip_event p s.clock with
  | .ok (item, _) =>
    let s1 := { s with table := putPure s.table item }
    process_stream_record s1 "INSERT" item
  | .error _ => s

/-! ## Concrete fixtures used by the claim theorems -/

def c0 : Clock := ⟨"2024-06-01T12:00:00", "2024-06-01", 1717243200⟩

def s0 : MState := ⟨[], [], [], [], c0⟩

/-- A BEGIN half-event payload as the producer emits it
(`kinesis_producer.py` labels start rows `event_type = "trip_begin"`). -/
def beginPayload : Payload :=
  [("trip_id", .vStr "T1"), ("event_type", .vStr "trip_begin"),
   ("pickup_location_id", .vNum 10), ("vendor_id", .vNum 1),
   ("pickup_datetime", .vStr "2024-01-01T10:00:00"),
   ("estimated_fare_amount", .vNum 10)]

/-- The matching END half-event payload (`event_type = "trip_end"`). -/
def endPayload : Payload :=
  [("trip_id", .vStr "T1"), ("event_type", .vStr "trip_end"),
   ("dropoff_datetime", .vStr "2024-01-01T10:20:00"),
   ("fare_amount", .vNum (mkRat 25 2)), ("passenger_count", .vNum 2)]

/-- A stored RAW BEGIN record with the given ingestion timestamp. -/
def rawBegin (ts : String) : Item := mkItem
  [("trip_id", .vStr "T1"), ("sk", .vStr ("RAW#T1#trip_begin#" ++ ts)),
   ("event_type", .vStr "trip_begin"), ("pickup_datetime", .vStr ts)]

/-- Store with two duplicate BEGIN RAW records (older and newer). -/
def s5 : MState :=
  ⟨[rawBegin "2024-01-02T09:00:00", rawBegin "2024-01-01T09:00:00"], [], [], [], c0⟩

def completedItem : Item := mkItem
  [("trip_id", .vStr "T1"), ("sk", .vStr "COMPLETED#T1"), ("status", .vStr "completed")]

/-- Store that holds a CompletedTrip, with the first store call failing
transiently and the next one succeeding. -/
def s8 : MState := ⟨[completedItem], [false, true], [], [], c0⟩

/-- An already-written CompletedTrip for entity `T2`, distinguishable by its
`matched_by` marker. -/
def oldCompleted : Item := mkItem
  [("trip_id", .vStr "T2"), ("sk", .vStr "COMPLETED#T2"),
   ("matched_by", .vStr "earlier_run")]

def rawStartT2 : Item := mkItem
  [("trip_id", .vStr "T2"), ("sk", .vStr "RAW#T2#trip_start#2024-01-01T09:00:00"),
   ("event_type", .vStr "trip_start"), ("pickup_datetime", .vStr "2024-01-01T09:00:00")]

/-- An `ORPHANED_END` state image for `T2` carrying the END payload inline. -/
def stateImageT2 : Item := mkItem
  [("trip_id", .vStr "T2"), ("sk", .vStr "STATE#T2"), ("status", .vStr "ORPHANED_END"),
   ("end_event", .vMap [("dropoff_datetime", .vStr "2024-01-01T09:30:00"),
                        ("fare_amount", .vNum 7)])]

/-- Store already containing `T2`'s CompletedTrip and a `trip_start` RAW record. -/
def s1c : MState := ⟨[oldCompleted, rawStartT2], [], [], [], c0⟩

/-- A RAW END record for `T3` with no BEGIN anywhere. -/
def endRawT3 : Item := mkItem
  [("trip_id", .vStr "T3"), ("sk", .vStr "RAW#T3#trip_end#2024-01-01T10:20:00"),
   ("event_type", .vStr "trip_end"), ("dropoff_datetime", .vStr "2024-01-01T10:20:00")]

def s3 : MState := ⟨[endRawT3], [], [], [], c0⟩

/-- A decoded transport payload with no `trip_id` (missing entity id). -/
def badRec : TRec := .ok [("foo", .vStr "x")]

/-- A `trip_end` payload whose fare is out of range (−5). -/
def endBadFare : Payload :=
  [("trip_id", .vStr "T9"), ("event_type", .vStr "trip_end"),
   ("dropoff_datetime", .vStr "2024-01-01T10:20:00"), ("fare_amount", .vNum (-5))]

/-- Events whose pickup and dropoff timestamps are equal (both parse). -/
def seEq : Payload := [("pickup_datetime", .vStr "2024-01-01T10:00:00")]

def eeEq : Payload := [("dropoff_datetime", .vStr "2024-01-01T10:00:00")]

/-- Start event with a present, numeric, zero fare estimate. -/
def seVar : Payload := [("estimated_fare_amount", .vNum 0)]

def eeVar : Payload := [("fare_amount", .vNum (mkRat 25 2))]

/-- Spec §8 derived-field example: BEGIN at 10:00 with estimate 10.00. -/
def seEx : Payload :=
  [("pickup_datetime", .vStr "2024-01-01T10:00:00"), ("estimated_fare_amount", .vNum 10)]

/-- Spec §8 derived-field example: END at 10:20 with actual fare 12.50. -/
def eeEx : Payload :=
  [("dropoff_datetime", .vStr "2024-01-01T10:20:00"), ("fare_amount", .vNum (mkRat 25 2))]

def imgEnd : Item := endRawT3

def cpBegin : Item := rawBegin "2024-01-01T09:00:00"

/-- Invocation whose store rejects all three put attempts. -/
def s7 : MState := ⟨[], [false, false, false], [], [], c0⟩

/-- Attribute of the item produced by a successful ingestion normalization. -/
def exceptAttr (r : Except String (Item × List String)) (k : String) : Option Value :=
  match r with
  | .ok (i, _) => getAttr i k
  | .error _ => none

/-- Warnings recorded by a successful ingestion normalization. -/
def exceptWarns (r : Except String (Item × List String)) : List String :=
  match r with
  | .ok (_, ws) => ws
  | .error _ => []

/-- Retried `get_item`, up to `n` attempts; `none` outside = all raised. -/
def getRetry : Nat → MState → String → String → MState × Option (Option Item)
  | 0, s, _, _ => (s, none)
  | Nat.succ n, s, tid, sk =>
    match getOnce s tid sk with
    | (s', some r) => (s', some r)
    | (s', none) => getRetry n s' tid sk

/-- The completed-trip existence check as the spec's words demand it
(§4.3: every store read goes through the bounded retry wrapper,
`max_attempts = 3`): the same `get_item`, but retried.  Stated for
comparison with the code's `completed_trip_exists`; the code is the
authority for the other claims. -/
def completed_trip_exists_spec (s : MState) (tid : String) : MState × Bool :=
  match getRetry 3 s tid ("COMPLETED#" ++ tid) with
  | (s', some r) => (s', r.isSome)
  | (s', none) => (s', false)

/-- Whether a transport record decodes and normalizes successfully. -/
def ingestOk (c : Clock) (r : TRec) : Bool :=
  match ingest_step c r with
  | .ok _ => true
  | .error _ => false

/-! ## Claim theorems -/

/-- C1: the claim says every code path that writes a CompletedTrip first
checks that none exists and writes conditionally, so a re-trigger for an
already-completed entity is a no-op.  The code refutes this: replaying an
`ORPHANED_END` state notification for entity `T2`, whose CompletedTrip
(marked `earlier_run`) already sits in the store, performs no existence
check and overwrites `COMPLETED#T2` through an unconditional `put_item`
(its `matched_by` marker becomes `stream_matcher`). -/
theorem C1_completed_overwritten :
    getPure s1c.table "T2" "COMPLETED#T2" = some oldCompleted ∧
    getAttr oldCompleted "matched_by" = some (.vStr "earlier_run") ∧
    (getPure (process_stream_record s1c "MODIFY" stateImageT2).table "T2"
        "COMPLETED#T2").map (fun i => getAttr i "matched_by") =
      some (some (.vStr "stream_matcher")) :=
  ⟨rfl, rfl, rfl⟩

/-- C2: the claim says BEGIN-then-END and END-then-BEGIN converge to the
same CompletedTrip.  The code refutes this: the ingestion path stores kind
label `trip_begin` in the RAW sort key, but the correlator only reacts to
`trip_start`/`trip_end` triggers, so a BEGIN trigger is skipped outright;
delivering BEGIN then END produces a CompletedTrip (the END trigger finds
the stored `trip_begin` record), while END then BEGIN never produces one. -/
theorem C2_order_dependent :
    (getPure (deliver (deliver s0 beginPayload) endPayload).table "T1"
       "COMPLETED#T1").isSome = true ∧
    getPure (deliver (deliver s0 endPayload) beginPayload).table "T1"
       "COMPLETED#T1" = none :=
  ⟨rfl, rfl⟩

/-- C3: the claim says an END with no BEGIN makes the correlator write an
`ORPHANED_END` CorrelationState carrying the END payload.  The code refutes
this: processing the RAW END record for `T3` (no BEGIN anywhere) leaves the
invocation state completely unchanged — no put is issued and no
`STATE#T3` record exists afterwards. -/
theorem C3_no_orphan_state_written :
    process_stream_record s3 "INSERT" endRawT3 = s3 ∧
    s3.putLog = [] ∧
    getPure s3.table "T3" "STATE#T3" = none :=
  ⟨rfl, rfl, rfl⟩

/-- C4: the claim says out-of-bounds numeric values are dropped to absent.
The code refutes this: both validators return their input unchanged (they
only record warnings), and a `trip_end` payload with fare −5 normalizes to
a RAW item that still carries `fare_amount = -5`, alongside the recorded
"Negative fare amount" warning. -/
theorem C4_out_of_range_value_retained :
    (∀ d, (validate_trip_end d).1 = d) ∧
    (∀ d, (validate_trip_start d).1 = d) ∧
    exceptAttr (process_trip_event endBadFare c0) "fare_amount" =
      some (.vNum (-5)) ∧
    exceptWarns (process_trip_event endBadFare c0) = ["Negative fare amount"] :=
  ⟨fun _ => rfl, fun _ => rfl, rfl, rfl⟩

/-- C5: the claim says the counterpart lookup selects the latest
`record_key` among duplicates.  The code refutes this: with two duplicate
BEGIN RAW records, the query returns ascending sort-key order and the code
takes `items[0]`, the lexicographically/temporally *earliest* key (the
selected key compares strictly below the other stored key). -/
theorem C5_picks_earliest_duplicate :
    ((find_counterpart_event s5 "T1" "trip_begin").2).map (fun i => i.sk) =
      some "RAW#T1#trip_begin#2024-01-01T09:00:00" ∧
    charsLt "RAW#T1#trip_begin#2024-01-01T09:00:00".data
      "RAW#T1#trip_begin#2024-01-02T09:00:00".data = true :=
  ⟨rfl, rfl⟩

/-- C6: the claim says a payload missing `entity_id` results in zero store
writes and exactly one dead-letter send.  The code refutes the second half:
the handler counts the record as an error and issues no store write, but
the DLQ call is commented out (source lines 212−213), so zero dead-letter
sends occur. -/
theorem C6_no_dlq_send :
    (lambda_handler [badRec] s0).1.putLog = [] ∧
    (lambda_handler [badRec] s0).1.table = [] ∧
    (lambda_handler [badRec] s0).1.dlqLog = [] ∧
    (lambda_handler [badRec] s0).2.errors = 1 ∧
    (lambda_handler [badRec] s0).2.processed = 0 :=
  ⟨rfl, rfl, rfl, rfl, rfl⟩

/-! ### Helper lemmas about the retry wrapper and the batch loop -/

theorem retryGo_putLog (it : Item) :
    ∀ (n : Nat) (s : MState), (retryGo it n s).1.putLog = s.putLog := by
  intro n
  induction n with
  | zero => intro s; rfl
  | succ n ih =>
    intro s
    unfold retryGo nextOutcome
    cases h : s.outcomes with
    | nil => simp
    | cons b bs =>
      cases b
      · simpa using ih { s with outcomes := bs }
      · simp

theorem retryGo_clock (it : Item) :
    ∀ (n : Nat) (s : MState), (retryGo it n s).1.clock = s.clock := by
  intro n
  induction n with
  | zero => intro s; rfl
  | succ n ih =>
    intro s
    unfold retryGo nextOutcome
    cases h : s.outcomes with
    | nil => simp
    | cons b bs =>
      cases b
      · simpa using ih { s with outcomes := bs }
      · simp

theorem retryGo_fail_table (it : Item) :
    ∀ (n : Nat) (s : MState),
      (retryGo it n s).2 = false → (retryGo it n s).1.table = s.table := by
  intro n
  induction n with
  | zero => intro s _; rfl
  | succ n ih =>
    intro s
    unfold retryGo nextOutcome
    cases h : s.outcomes with
    | nil => simp
    | cons b bs =>
      cases b
      · simpa using ih { s with outcomes := bs }
      · simp

theorem retryPut_putLog (s : MState) (it : Item) :
    (retryPut s it).1.putLog = s.putLog ++ [it] := by
  unfold retryPut
  rw [retryGo_putLog]

theorem retryPut_clock (s : MState) (it : Item) :
    (retryPut s it).1.clock = s.clock := by
  unfold retryPut
  rw [retryGo_clock]

theorem retryPut_fail_table (s : MState) (it : Item) :
    (retryPut s it).2 = false → (retryPut s it).1.table = s.table := by
  unfold retryPut
  exact retryGo_fail_table it 3 _

theorem update_state_putLog (s : MState) (tid : String) (se ee : Payload) :
    (update_trip_state_to_completed s tid se ee).putLog.map (fun i => i.sk) =
      s.putLog.map (fun i => i.sk) ++ ["STATE#" ++ tid] := by
  unfold update_trip_state_to_completed
  rw [retryPut_putLog]
  simp only [List.map_append]
  rfl

theorem merge_sk (tid : String) (se ee : Payload) (c : Clock) :
    (merge_trip_events tid se ee c).sk = "COMPLETED#" ++ tid := rfl

/-- C7: in both completion paths the CompletedTrip write is always attempted
first, and the terminal `CorrelationState(COMPLETED)` write is attempted
exactly when the (retried) CompletedTrip write succeeded; when it fails
after retries exhaust, no further write is attempted and the table — in
particular any `STATE#` record — is left untouched. -/
theorem C7_state_write_gated_on_completed_write :
    (∀ (s : MState) (tid curType : String) (image cp : Item),
      (create_completed_trip s tid curType image cp).putLog.map (fun i => i.sk) =
        s.putLog.map (fun i => i.sk) ++
          (if (retryPut s (merge_trip_events tid
                (if curType == "trip_start" then itemToDict image else itemToDict cp)
                (if curType == "trip_start" then itemToDict cp else itemToDict image)
                s.clock)).2
           then ["COMPLETED#" ++ tid, "STATE#" ++ tid]
           else ["COMPLETED#" ++ tid]) ∧
      ((retryPut s (merge_trip_events tid
                (if curType == "trip_start" then itemToDict image else itemToDict cp)
                (if curType == "trip_start" then itemToDict cp else itemToDict image)
                s.clock)).2 = false →
        (create_completed_trip s tid curType image cp).table = s.table)) ∧
    (∀ (s : MState) (tid : String) (se ee : Payload),
      (create_completed_trip_from_state s tid se ee).putLog.map (fun i => i.sk) =
        s.putLog.map (fun i => i.sk) ++
          (if (retryPut s (merge_trip_events tid se ee s.clock)).2
           then ["COMPLETED#" ++ tid, "STATE#" ++ tid]
           else ["COMPLETED#" ++ tid]) ∧
      ((retryPut s (merge_trip_events tid se ee s.clock)).2 = false →
        (create_completed_trip_from_state s tid se ee).table = s.table)) := by
  constructor
  · intro s tid curType image cp
    unfold create_completed_trip
    rcases hrp : retryPut s (merge_trip_events tid
        (if curType == "trip_start" then itemToDict image else itemToDict cp)
        (if curType == "trip_start" then itemToDict cp else itemToDict image)
        s.clock) with ⟨s1, ok⟩
    have hlog : s1.putLog = s.putLog ++ [merge_trip_events tid
        (if curType == "trip_start" then itemToDict image else itemToDict cp)
        (if curType == "trip_start" then itemToDict cp else itemToDict image)
        s.clock] := by
      have := retryPut_putLog s (merge_trip_events tid
        (if curType == "trip_start" then itemToDict image else itemToDict cp)
        (if curType == "trip_start" then itemToDict cp else itemToDict image)
        s.clock)
      rw [hrp] at this
      exact this
    simp only [hrp]
    cases ok
    · constructor
      · simp [hlog, merge_sk]
      · intro _
        have := retryPut_fail_table s (merge_trip_events tid
          (if curType == "trip_start" then itemToDict image else itemToDict cp)
          (if curType == "trip_start" then itemToDict cp else itemToDict image)
          s.clock)
        rw [hrp] at this
        simpa using this rfl
    · constructor
      · simp [update_state_putLog, hlog, merge_sk]
      · intro h
        exact absurd h (by simp)
  · intro s tid se ee
    unfold create_completed_trip_from_state
    rcases hrp : retryPut s (merge_trip_events tid se ee s.clock) with ⟨s1, ok⟩
    have hlog : s1.putLog = s.putLog ++ [merge_trip_events tid se ee s.clock] := by
      have := retryPut_putLog s (merge_trip_events tid se ee s.clock)
      rw [hrp] at this
      exact this
    simp only [hrp]
    cases ok
    · constructor
      · simp [hlog, merge_sk]
      · intro _
        have := retryPut_fail_table s (merge_trip_events tid se ee s.clock)
        rw [hrp] at this
        simpa using this rfl
    · constructor
      · simp [update_state_putLog, hlog, merge_sk]
      · intro h
        exact absurd h (by simp)

/-- Witness for C7: with a store that rejects all three put attempts, the
completion step attempts exactly the CompletedTrip write and leaves the
table unchanged (no state record is advanced). -/
theorem C7_state_write_gated_witness :
    (create_completed_trip s7 "T1" "trip_end" imgEnd cpBegin).putLog.map
        (fun i => i.sk) = ["COMPLETED#T1"] ∧
    (create_completed_trip s7 "T1" "trip_end" imgEnd cpBegin).table = s7.table := by
  obtain ⟨h, _⟩ := C7_state_write_gated_on_completed_write
  constructor
  · rw [(h s7 "T1" "trip_end" imgEnd cpBegin).1]
    rfl
  · exact (h s7 "T1" "trip_end" imgEnd cpBegin).2 rfl

/-- C8 counterexample: the claim says every store read goes through the
retry wrapper, in particular the completed-trip existence check.  With a
CompletedTrip present and a single transient store failure followed by a
success, the code's check reports `false` (no retry happened), while the
spec-mandated retried check reports `true`. -/
theorem C8_lookup_unretried_counterexample :
    (completed_trip_exists s8 "T1").2 = false ∧
    (completed_trip_exists_spec s8 "T1").2 = true ∧
    getPure s8.table "T1" "COMPLETED#T1" = some completedItem :=
  ⟨rfl, rfl, rfl⟩

/-- C8 amended: only the individual put writes go through the bounded
retry wrapper (a write failing once and succeeding on the second attempt
still lands); the correlator's completed-trip existence check and
counterpart query execute a single store call — they consume exactly one
outcome and report "absent" on a failure, regardless of the table. -/
theorem C8_amended_retry_surface :
    (∀ (s : MState) (it : Item) (rest : List Bool),
       s.outcomes = false :: true :: rest →
       (retryPut s it).2 = true ∧ (retryPut s it).1.table = putPure s.table it) ∧
    (∀ (s : MState) (tid : String) (rest : List Bool),
       s.outcomes = false :: rest →
       (completed_trip_exists s tid).2 = false ∧
       (completed_trip_exists s tid).1.outcomes = rest) ∧
    (∀ (s : MState) (tid et : String) (rest : List Bool),
       s.outcomes = false :: rest →
       (find_counterpart_event s tid et).2 = none ∧
       (find_counterpart_event s tid et).1.outcomes = rest) := by
  refine ⟨?_, ?_, ?_⟩
  · intro s it rest h
    simp [retryPut, retryGo, nextOutcome, h]
  · intro s tid rest h
    unfold completed_trip_exists getOnce nextOutcome
    simp [h]
  · intro s tid et rest h
    unfold find_counterpart_event queryOnce nextOutcome
    simp [h]

/-- Witness for C8 amended: concrete evaluation at a transiently failing
store. -/
theorem C8_amended_retry_surface_witness :
    (retryPut { s0 with outcomes := [false, true] } completedItem).2 = true ∧
    (retryPut { s0 with outcomes := [false, true] } completedItem).1.table =
      putPure s0.table completedItem ∧
    (completed_trip_exists s8 "T1").2 = false ∧
    (completed_trip_exists s8 "T1").1.outcomes = [true] ∧
    (find_counterpart_event s8 "T1" "trip_begin").2 = none := by
  obtain ⟨hw, hr, hq⟩ := C8_amended_retry_surface
  exact ⟨(hw { s0 with outcomes := [false, true] } completedItem [] rfl).1,
         (hw { s0 with outcomes := [false, true] } completedItem [] rfl).2,
         (hr s8 "T1" [true] rfl).1,
         (hr s8 "T1" [true] rfl).2,
         (hq s8 "T1" "trip_begin" [true] rfl).1⟩

theorem merge_duration_attr (tid : String) (se ee : Payload) (c : Clock) :
    getAttr (merge_trip_events tid se ee c) "trip_duration_seconds" =
      some (match
        (if truthyO (pyGet se "pickup_datetime") && truthyO (pyGet ee "dropoff_datetime") then
          match parseTsVal (pyGet se "pickup_datetime"), parseTsVal (pyGet ee "dropoff_datetime") with
          | some d1, some d2 => diffSeconds d1 d2
          | _, _ => none
        else none) with
      | some d => if d == 0 then Value.vNull else Value.vNum d
      | none => Value.vNull) := rfl

theorem merge_variance_attr (tid : String) (se ee : Payload) (c : Clock) :
    getAttr (merge_trip_events tid se ee c) "fare_variance" =
      some ((((if truthy ((pyGet se "estimated_fare_amount").getD (.vNum 0)) &&
                truthy ((pyGet ee "fare_amount").getD (.vNum 0)) then
          match pyFloat ((pyGet ee "fare_amount").getD (.vNum 0)),
                pyFloat ((pyGet se "estimated_fare_amount").getD (.vNum 0)) with
          | some a, some e => some (a - e)
          | _, _ => none
        else none)).map Value.vNum).getD .vNull) := rfl

/-- C9 counterexample: the claim says the duration is computed exactly when
both timestamps parse, and the variance exactly when both fare values are
present and numeric.  With equal (parsing) pickup and dropoff timestamps
the stored duration is `None` (the code stores it under a Python truthiness
check, and `0.0` is falsy); with a present, numeric, zero fare estimate the
stored variance is `None` (the inputs are guarded by truthiness, and `0` is
falsy). -/
theorem C9_zero_values_dropped_counterexample :
    (parseTsVal (pyGet seEq "pickup_datetime")).isSome = true ∧
    (parseTsVal (pyGet eeEq "dropoff_datetime")).isSome = true ∧
    getAttr (merge_trip_events "T" seEq eeEq c0) "trip_duration_seconds" =
      some .vNull ∧
    pyGet seVar "estimated_fare_amount" = some (.vNum 0) ∧
    pyFloat (.vNum 0) = some 0 ∧
    getAttr (merge_trip_events "T" seVar eeVar c0) "fare_variance" =
      some .vNull :=
  ⟨rfl, rfl, rfl, rfl, rfl, rfl⟩

/-- C9 amended: for truthy timestamp fields that both parse (with matching
timezone-awareness, difference `q`), the merged record stores
`trip_duration_seconds = q` unless `q = 0`, in which case the field is
`None`; for truthy fare fields that both convert to numbers, it stores
`fare_variance = actual − estimate` (zero variance included).  The spec's
examples (10:00→10:20 gives 1200 s, 10.00→12.50 gives 2.50) instantiate
this in the witness. -/
theorem C9_amended_derived_fields :
    (∀ (tid : String) (se ee : Payload) (c : Clock) (v1 v2 : Value)
       (d1 d2 : DT) (q : ℚ),
      pyGet se "pickup_datetime" = some v1 → truthy v1 = true →
      pyGet ee "dropoff_datetime" = some v2 → truthy v2 = true →
      parseTsVal (some v1) = some d1 → parseTsVal (some v2) = some d2 →
      diffSeconds d1 d2 = some q →
      getAttr (merge_trip_events tid se ee c) "trip_duration_seconds" =
        some (if q == 0 then Value.vNull else Value.vNum q)) ∧
    (∀ (tid : String) (se ee : Payload) (c : Clock) (fe fa : Value) (e a : ℚ),
      pyGet se "estimated_fare_amount" = some fe → truthy fe = true →
      pyGet ee "fare_amount" = some fa → truthy fa = true →
      pyFloat fe = some e → pyFloat fa = some a →
      getAttr (merge_trip_events tid se ee c) "fare_variance" =
        some (.vNum (a - e))) := by
  constructor
  · intro tid se ee c v1 v2 d1 d2 q h1 h2 h3 h4 h5 h6 h7
    rw [merge_duration_attr, h1, h3]
    simp [truthyO, h2, h4, h5, h6, h7]
  · intro tid se ee c fe fa e a h1 h2 h3 h4 h5 h6
    rw [merge_variance_attr, h1, h3]
    simp [h2, h4, h5, h6]

/-- Witness for C9 amended: the spec's §8 example values. -/
theorem C9_amended_derived_fields_witness :
    getAttr (merge_trip_events "T1" seEx eeEx c0) "trip_duration_seconds" =
      some (.vNum 1200) ∧
    getAttr (merge_trip_events "T1" seEx eeEx c0) "fare_variance" =
      some (.vNum (5/2)) := by
  obtain ⟨hd, hv⟩ := C9_amended_derived_fields
  constructor
  · have h := hd "T1" seEx eeEx c0 (.vStr "2024-01-01T10:00:00")
      (.vStr "2024-01-01T10:20:00") ⟨2024, 1, 1, 10, 0, 0, none⟩
      ⟨2024, 1, 1, 10, 20, 0, none⟩ 1200 rfl rfl rfl rfl rfl rfl (by decide)
    rw [h]
    norm_num
  · have h := hv "T1" seEx eeEx c0 (.vNum 10) (.vNum (mkRat 25 2)) 10 (mkRat 25 2)
      rfl (by decide) rfl (by decide) rfl rfl
    rw [h]
    simp [Rat.mkRat_eq_div]
    norm_num

theorem foldl_write_clock :
    ∀ (items : List Item) (s : MState),
      (items.foldl (fun st it => (write_raw_event st it).1) s).clock = s.clock := by
  intro items
  induction items with
  | nil => intro s; rfl
  | cons it rest ih =>
    intro s
    simp only [List.foldl_cons]
    rw [ih]
    unfold write_raw_event
    exact retryPut_clock s it

theorem process_batch_clock (s : MState) (items : List Item) :
    (process_batch s items).clock = s.clock := by
  unfold process_batch nextOutcome
  cases h : s.outcomes with
  | nil => simp
  | cons b bs =>
    cases b
    · simpa using foldl_write_clock items { s with outcomes := bs }
    · simp

theorem filter_length_add {α : Type} (l : List α) (p : α → Bool) :
    (l.filter p).length + (l.filter (fun a => !(p a))).length = l.length := by
  induction l with
  | nil => rfl
  | cons a t ih =>
    by_cases h : p a <;> simp [List.filter, h] <;> omega

theorem ingest_loop_counts :
    ∀ (recs : List TRec) (s : MState) (pending : List Item) (proc err : Nat)
      (ebt : List (String × Nat)),
      (ingest_loop recs s pending proc err ebt).2.1 =
        proc + pending.length + (recs.filter (ingestOk s.clock)).length ∧
      (ingest_loop recs s pending proc err ebt).2.2.1 =
        err + (recs.filter (fun r => !(ingestOk s.clock r))).length := by
  intro recs
  induction recs with
  | nil =>
    intro s pending proc err ebt
    cases pending <;> simp [ingest_loop]
  | cons r rest ih =>
    intro s pending proc err ebt
    unfold ingest_loop
    cases hstep : ingest_step s.clock r with
    | error e =>
      have hok : ingestOk s.clock r = false := by simp [ingestOk, hstep]
      have := ih s pending proc (err + 1) ebt
      simp only [List.filter, hok, Bool.not_false]
      constructor
      · exact this.1
      · rw [this.2]
        simp
        omega
    | ok pr =>
      rcases pr with ⟨item, ws⟩
      have hok : ingestOk s.clock r = true := by simp [ingestOk, hstep]
      simp only [List.filter, hok, Bool.not_true]
      by_cases hlen : (pending ++ [item]).length ≥ 25
      · simp only [hlen, if_pos]
        have hcl : (process_batch s (pending ++ [item])).clock = s.clock :=
          process_batch_clock s (pending ++ [item])
        have := ih (process_batch s (pending ++ [item])) []
          (proc + (pending ++ [item]).length) err
          (bump ebt ((getAttr item "event_type").elim "unknown" pyStr))
        rw [hcl] at this
        constructor
        · rw [this.1]
          simp [List.length_append]
          omega
        · exact this.2
      · simp only [hlen, if_neg, if_false]
        have := ih s (pending ++ [item]) proc err
          (bump ebt ((getAttr item "event_type").elim "unknown" pyStr))
        constructor
        · rw [this.1]
          simp [List.length_append]
          omega
        · exact this.2

/-- C10: on every input batch the ingestion handler returns statusCode 200;
its processed count is exactly the number of records that decode and
normalize successfully, and its error count the number that do not, so
processed + errors equals the batch size.  Both counts are stated for an
arbitrary invocation state — in particular for any store-outcome oracle, so
a record whose batch write and per-record fallback write both fail is still
counted as processed, never as an error. -/
theorem C10_handler_counts :
    ∀ (recs : List TRec) (s : MState),
      (lambda_handler recs s).2.statusCode = 200 ∧
      (lambda_handler recs s).2.processed = (recs.filter (ingestOk s.clock)).length ∧
      (lambda_handler recs s).2.errors =
        (recs.filter (fun r => !(ingestOk s.clock r))).length ∧
      (lambda_handler recs s).2.processed + (lambda_handler recs s).2.errors =
        recs.length := by
  intro recs s
  have h := ingest_loop_counts recs s [] 0 0 []
  unfold lambda_handler
  rcases hl : ingest_loop recs s [] 0 0 [] with ⟨s', proc, err, ebt⟩
  rw [hl] at h
  simp only at h
  refine ⟨rfl, ?_, ?_, ?_⟩
  · simpa using h.1
  · simpa using h.2
  · have h1 := h.1
    have h2 := h.2
    simp only [Nat.zero_add, List.length_nil] at h1 h2
    simp only [h1, h2]
    simpa using filter_length_add recs (ingestOk s.clock)
